import Mathlib

/-!
Verification of `bigquery_etl/load/load_data_from_file.py`.

The script is a batch-load submitter: it waits until an expected number of
objects is visible in object storage (`__check_contents`), builds and submits
one BigQuery load job (`load_table`), and polls the job until a terminal
state (`poll_job`).  The embedding below models the remote collaborators as
oracles:

* object-storage listing: `listing : Nat → Nat`, where `listing i` is the
  object count returned by the (i+1)-th listing call (index i counts listing
  calls performed so far, i.e. the value of `check_count` at that call);
* job-status retrieval: `resp : Nat → JobStatus`, where `resp k` is the
  status returned by the (k+1)-th `jobs().get(...).execute` call;
* `str(uuid.uuid4())` : a `uuid : String` oracle input, one draw per
  `load_table` call.

Side effects (sleeps and remote calls) are logged as an `Event` list, so that
call counts and sleep durations are observable in theorems.  The unbounded
`while True` polling loop is given explicit fuel; `none` means the loop was
still polling when the fuel ran out.  The readiness loop is intrinsically
bounded (it raises when `check_count` reaches 40), so fuel 41 from the entry
point always suffices.

The source is Python 2: in `1 + int(ceil(check_count / 10))` the division
`check_count / 10` is integer floor division, and `int(ceil(·))` of an
integer is the identity, so the sleep is `1 + check_count / 10` with Nat
division.
-/

/-- Observable side effects of the script, in order of occurrence. -/
inductive Event where
  | sleep (secs : Nat)
  | listBlobs (pfx : String)
  | insertJob (projectId : String) (numRetries : Nat)
  | getStatus
deriving Repr, DecidableEq

/-- The payload of the `ValueError` raised by `__check_contents` after 40
tries: the message interpolates the expected count, the count found by the
last listing, and the checked `data_path`. -/
structure CheckTimeout where
  expected : Nat
  found : Nat
  path : String
deriving Repr, DecidableEq

/-- `data_path.split('/')[2]` -/
def bucket_name (data_path : String) : String :=
  (data_path.splitOn "/").getD 2 ""

/-- `'/'.join(data_path.split('/')[3:-1])` -/
def object_path (data_path : String) : String :=
  String.intercalate "/" (((data_path.splitOn "/").drop 3).dropLast)

/-- The `while batch_count != cur_count` loop of `__check_contents`.
`cur` is `cur_count`, `cc` is `check_count`.  Each iteration sleeps
`1 + check_count / 10` seconds, lists the blobs under the path to recompute
`cur_count`, raises when `check_count == 40`, and otherwise increments
`check_count` and re-tests the loop condition.  `fuel` is `41 - check_count`
at the entry point; since the loop raises at `check_count = 40`, the
`fuel = 0` branch is unreachable from `checkContents` (its value mirrors the
exit/raise alternatives so that no run of the loop is cut short). -/
def checkContentsAux (listing : Nat → Nat) (batch_count : Nat)
    (data_path : String) : Nat → Nat → Nat → Except CheckTimeout Unit × List Event
  | 0, cur, _ =>
    if batch_count = cur then (Except.ok (), [])
    else (Except.error ⟨batch_count, cur, data_path⟩, [])
  | fuel + 1, cur, cc =>
    if batch_count = cur then (Except.ok (), [])
    else
      let cur' := listing cc
      let evs := [Event.sleep (1 + cc / 10), Event.listBlobs (object_path data_path)]
      if cc = 40 then (Except.error ⟨batch_count, cur', data_path⟩, evs)
      else
        let rest := checkContentsAux listing batch_count data_path fuel cur' (cc + 1)
        (rest.1, evs ++ rest.2)

/-- `__check_contents(data_path, project_id, batch_count)`: entry point of the
readiness check, starting with `cur_count = 0` and `check_count = 0`. -/
def checkContents (listing : Nat → Nat) (batch_count : Nat)
    (data_path : String) : Except CheckTimeout Unit × List Event :=
  checkContentsAux listing batch_count data_path 41 0 0

/-- One response of `bigquery.jobs().get(...).execute`, restricted to the
`result['status']` fields that `poll_job` reads.  `errors = some p` models the
key `'errors'` being present with payload `p`; likewise for `errorResult`. -/
structure JobStatus where
  state : String
  errors : Option String
  errorResult : Option String
deriving Repr, DecidableEq

/-- How `poll_job` terminates: normal return, `RuntimeError` raised from the
`'errors'` branch, or `RuntimeError` raised from the `'errorResult'` branch. -/
inductive PollOutcome where
  | success
  | raisedErrors (payload : String)
  | raisedErrorResult (payload : String)
deriving Repr, DecidableEq

/-- The `while True` loop of `poll_job`.  `k` counts the `execute` calls made
so far.  Each iteration retrieves the status; if `'errors'` is present it
raises with that payload; else if the state is `DONE` it raises with the
`errorResult` payload when present and returns otherwise; else it sleeps one
second (hard-coded `time.sleep(1)`) and polls again.  `none` means the fuel
ran out while the loop was still polling. -/
def pollJobAux (resp : Nat → JobStatus) : Nat → Nat → Option PollOutcome × List Event
  | 0, _ => (none, [])
  | fuel + 1, k =>
    let r := resp k
    match r.errors with
    | some e => (some (PollOutcome.raisedErrors e), [Event.getStatus])
    | none =>
      if r.state = "DONE" then
        match r.errorResult with
        | some er => (some (PollOutcome.raisedErrorResult er), [Event.getStatus])
        | none => (some PollOutcome.success, [Event.getStatus])
      else
        let rest := pollJobAux resp fuel (k + 1)
        (rest.1, Event.getStatus :: Event.sleep 1 :: rest.2)

/-- `poll_job(bigquery, job)`, with the status oracle and fuel made explicit. -/
def pollJob (resp : Nat → JobStatus) (fuel : Nat) : Option PollOutcome × List Event :=
  pollJobAux resp fuel 0

/-- The `jobReference` part of the job body built by `load_table`.  The source
uses the key `'job_id'` (set to `str(uuid.uuid4())`). -/
structure JobReference where
  projectId : String
  job_id : String
deriving Repr, DecidableEq

/-- The `configuration.load` part of the job body built by `load_table`. -/
structure LoadConfig where
  sourceFormat : String
  sourceUris : List String
  schemaFields : List String
  destinationProjectId : String
  destinationDatasetId : String
  destinationTableId : String
  ignoreUnknownValues : Bool
  createDisposition : String
  writeDisposition : String
deriving Repr, DecidableEq

/-- The full `job_data` dictionary built by `load_table`. -/
structure JobData where
  jobReference : JobReference
  load : LoadConfig
deriving Repr, DecidableEq

/-- `load_table(...)`: builds the `job_data` body.  The fresh random
identifier `str(uuid.uuid4())` is modelled as the oracle input `uuid`; the
schema (a sequence of field descriptors read from the schema file and passed
through unchanged) is modelled as a list of field-descriptor strings. -/
def load_table (uuid : String) (project_id dataset_id table_name : String)
    (source_schema : List String) (source_path : String)
    (source_format : String) (write_disposition : String) : JobData :=
  { jobReference := { projectId := project_id, job_id := uuid }
  , load :=
    { sourceFormat := source_format
    , sourceUris := [source_path]
    , schemaFields := source_schema
    , destinationProjectId := project_id
    , destinationDatasetId := dataset_id
    , destinationTableId := table_name
    , ignoreUnknownValues := true
    , createDisposition := "CREATE_IF_NEEDED"
    , writeDisposition := write_disposition } }

/-- The failure modes of `run`: the `ValueError` of the readiness check, or
one of the two `RuntimeError`s of `poll_job`, each propagated unhandled. -/
inductive RunError where
  | readiness (e : CheckTimeout)
  | jobErrors (payload : String)
  | jobErrorResult (payload : String)
deriving Repr, DecidableEq

/-- `run(project_id, batch_count, dataset_id, table_name, schema_file,
data_path, source_format, write_disposition, num_retries, poll_interval)`:
readiness check first, then one `jobs().insert(...).execute(num_retries=...)`
submission, then the polling loop.  The parsed schema file is the `schema`
argument.  `poll_interval` is accepted but never read by the source, which is
reproduced faithfully here.  The result is `none` when the polling fuel ran
out, otherwise the propagated error or unit. -/
def run (listing : Nat → Nat) (resp : Nat → JobStatus) (uuid : String)
    (pollFuel : Nat) (project_id : String) (batch_count : Nat)
    (dataset_id table_name : String) (schema : List String)
    (data_path source_format write_disposition : String)
    (num_retries : Nat) (poll_interval : Nat) :
    Option (Except RunError Unit) × List Event :=
  match checkContents listing batch_count data_path with
  | (Except.error e, log) => (some (Except.error (RunError.readiness e)), log)
  | (Except.ok _, log1) =>
    let job := load_table uuid project_id dataset_id table_name schema
      data_path source_format write_disposition
    let log2 := [Event.insertJob job.jobReference.projectId num_retries]
    match pollJob resp pollFuel with
    | (none, log3) => (none, log1 ++ log2 ++ log3)
    | (some PollOutcome.success, log3) =>
      (some (Except.ok ()), log1 ++ log2 ++ log3)
    | (some (PollOutcome.raisedErrors e), log3) =>
      (some (Except.error (RunError.jobErrors e)), log1 ++ log2 ++ log3)
    | (some (PollOutcome.raisedErrorResult e), log3) =>
      (some (Except.error (RunError.jobErrorResult e)), log1 ++ log2 ++ log3)

/-- The durations of the `sleep` events of a log, in order. -/
def sleepSecs (l : List Event) : List Nat :=
  l.filterMap fun e =>
    match e with
    | Event.sleep s => some s
    | _ => none

/-- Is this event a status-retrieval call? -/
def isGetStatus : Event → Bool
  | Event.getStatus => true
  | _ => false

/-- Number of job-status retrieval calls in a log. -/
def statusCalls (l : List Event) : Nat :=
  (l.filter isGetStatus).length

/-- Is this event a call that touches the warehouse job service
(job submission or job-status retrieval)? -/
def isRemoteJobCall : Event → Bool
  | Event.insertJob _ _ => true
  | Event.getStatus => true
  | _ => false

/-- Number of warehouse job-service calls (submissions or status
retrievals) in a log. -/
def remoteJobCalls (l : List Event) : Nat :=
  (l.filter isRemoteJobCall).length

/-! ## Invariant lemmas about the readiness-check loop -/

/-- If the loop condition already holds, or some listing in range matches,
the loop exits normally.  `cc + fuel = 41` and `cc ≤ 40` hold at every
reachable state of the loop. -/
theorem checkContentsAux_ok (listing : Nat → Nat) (bc : Nat) (dp : String) :
    ∀ fuel cur cc, cc + fuel = 41 → cc ≤ 40 →
    (bc = cur ∨ ∃ i, cc ≤ i ∧ i < 40 ∧ listing i = bc) →
    (checkContentsAux listing bc dp fuel cur cc).1 = Except.ok () := by
  intro fuel
  induction fuel with
  | zero => intro cur cc hsum hle _; omega
  | succ fuel ih =>
    intro cur cc hsum hle hmatch
    by_cases hbc : bc = cur
    · simp [checkContentsAux, hbc]
    · rcases hmatch with hbc' | ⟨i, hcci, hi40, hli⟩
      · exact absurd hbc' hbc
      · have hcc40 : cc ≠ 40 := by omega
        simp only [checkContentsAux, if_neg hbc, if_neg hcc40]
        apply ih (listing cc) (cc + 1) (by omega) (by omega)
        rcases Nat.eq_or_lt_of_le hcci with hicc | hicc
        · exact Or.inl (hicc ▸ hli.symm)
        · exact Or.inr ⟨i, by omega, hi40, hli⟩

/-- If no listing in range matches, the loop raises after the listing at
index 40, reporting the expected count, the count found by that final
listing, and the data path. -/
theorem checkContentsAux_timeout (listing : Nat → Nat) (bc : Nat) (dp : String) :
    ∀ fuel cur cc, cc + fuel = 41 → cc ≤ 40 → bc ≠ cur →
    (∀ i, cc ≤ i → i < 40 → listing i ≠ bc) →
    (checkContentsAux listing bc dp fuel cur cc).1 =
      Except.error ⟨bc, listing 40, dp⟩ := by
  intro fuel
  induction fuel with
  | zero => intro cur cc hsum hle _ _; omega
  | succ fuel ih =>
    intro cur cc hsum hle hbc hnone
    by_cases hcc40 : cc = 40
    · subst hcc40
      simp [checkContentsAux, if_neg (fun h => hbc h)]
    · simp only [checkContentsAux, if_neg (fun h => hbc h), if_neg hcc40]
      apply ih (listing cc) (cc + 1) (by omega) (by omega)
      · exact fun h => hnone cc (Nat.le_refl cc) (by omega) h.symm
      · exact fun i hi hi40 => hnone i (by omega) hi40

/-- The readiness check makes no warehouse job-service calls: its log holds
only sleeps and listing calls. -/
theorem checkContentsAux_no_remote (listing : Nat → Nat) (bc : Nat) (dp : String) :
    ∀ fuel cur cc, remoteJobCalls (checkContentsAux listing bc dp fuel cur cc).2 = 0 := by
  intro fuel
  induction fuel with
  | zero =>
    intro cur cc
    by_cases hbc : bc = cur <;>
      simp [checkContentsAux, hbc, remoteJobCalls]
  | succ fuel ih =>
    intro cur cc
    by_cases hbc : bc = cur
    · simp [checkContentsAux, hbc, remoteJobCalls]
    · by_cases hcc40 : cc = 40
      · simp [checkContentsAux, hbc, hcc40, remoteJobCalls, isRemoteJobCall]
      · have := ih (listing cc) (cc + 1)
        simp only [checkContentsAux, if_neg hbc, if_neg hcc40]
        simp only [remoteJobCalls, List.filter_append, List.length_append] at *
        simp [isRemoteJobCall, this]

/-- The sleeps of a loop run starting at `check_count = cc` are, in order,
`1 + (cc + 0) / 10, 1 + (cc + 1) / 10, ...`, one per listing performed. -/
theorem checkContentsAux_sleeps (listing : Nat → Nat) (bc : Nat) (dp : String) :
    ∀ fuel cur cc, ∃ n,
    sleepSecs (checkContentsAux listing bc dp fuel cur cc).2 =
      (List.range n).map (fun j => 1 + (cc + j) / 10) := by
  intro fuel
  induction fuel with
  | zero =>
    intro cur cc
    refine ⟨0, ?_⟩
    by_cases hbc : bc = cur <;> simp [checkContentsAux, hbc, sleepSecs]
  | succ fuel ih =>
    intro cur cc
    by_cases hbc : bc = cur
    · exact ⟨0, by simp [checkContentsAux, hbc, sleepSecs]⟩
    · by_cases hcc40 : cc = 40
      · refine ⟨1, ?_⟩
        simp [checkContentsAux, if_neg hbc, hcc40, sleepSecs]
        decide
      · obtain ⟨n, hn⟩ := ih (listing cc) (cc + 1)
        refine ⟨n + 1, ?_⟩
        simp only [checkContentsAux, if_neg hbc, if_neg hcc40]
        simp only [sleepSecs, List.filterMap_append] at hn ⊢
        rw [List.range_succ_eq_map, List.map_cons, List.map_map]
        simp only [List.filterMap_cons]
        simp only [hn]
        refine congrArg (List.cons _) (List.map_congr_left ?_)
        intro j _
        simp only [Function.comp]
        rw [show cc + 1 + j = cc + (j + 1) by omega]

/-! ## Invariant lemmas about the polling loop -/

/-- If the first `k` responses are non-terminal and error-free and the
response at index `k` is `DONE` with an `errorResult` payload (and no
`errors` field), the polling loop raises with that payload.  `i` is the
index of the next `execute` call. -/
theorem pollJobAux_errorResult (resp : Nat → JobStatus) (P : String) :
    ∀ k fuel i, k + 1 ≤ fuel →
    (∀ j, j < k → (resp (i + j)).errors = none ∧ (resp (i + j)).state ≠ "DONE") →
    (resp (i + k)).errors = none →
    (resp (i + k)).state = "DONE" →
    (resp (i + k)).errorResult = some P →
    (pollJobAux resp fuel i).1 = some (PollOutcome.raisedErrorResult P) := by
  intro k
  induction k with
  | zero =>
    intro fuel i hfuel hpre herr hstate hres
    obtain ⟨f, rfl⟩ : ∃ f, fuel = f + 1 := ⟨fuel - 1, by omega⟩
    simp only [Nat.add_zero] at herr hstate hres
    simp [pollJobAux, herr, hstate, hres]
  | succ k ih =>
    intro fuel i hfuel hpre herr hstate hres
    obtain ⟨f, rfl⟩ : ∃ f, fuel = f + 1 := ⟨fuel - 1, by omega⟩
    have h0 := hpre 0 (Nat.succ_pos k)
    simp only [Nat.add_zero] at h0
    simp only [pollJobAux, h0.1, if_neg h0.2]
    exact ih f (i + 1) (by omega)
      (fun j hj => by
        have := hpre (j + 1) (by omega)
        rwa [show i + (j + 1) = i + 1 + j by omega] at this)
      (by rw [show i + 1 + k = i + (k + 1) by omega]; exact herr)
      (by rw [show i + 1 + k = i + (k + 1) by omega]; exact hstate)
      (by rw [show i + 1 + k = i + (k + 1) by omega]; exact hres)

/-- Every sleep of the polling loop lasts the hard-coded 1 second. -/
theorem pollJobAux_sleeps_one (resp : Nat → JobStatus) :
    ∀ fuel i, (sleepSecs (pollJobAux resp fuel i).2).all (fun s => s == 1) = true := by
  intro fuel
  induction fuel with
  | zero => intro i; simp [pollJobAux, sleepSecs]
  | succ fuel ih =>
    intro i
    rcases herr : (resp i).errors with _ | e
    · by_cases hst : (resp i).state = "DONE"
      · rcases hres : (resp i).errorResult with _ | er <;>
          simp [pollJobAux, herr, hst, hres, sleepSecs]
      · simp only [pollJobAux, herr, if_neg hst]
        simp only [sleepSecs, List.filterMap_cons] at ih ⊢
        simp [ih (i + 1)]
    · simp [pollJobAux, herr, sleepSecs]

/-! ## Claim theorems -/

/-- C1: for every expected object count `N ≥ 0`, if the object-storage
listing returns exactly `N` objects on some attempt at or before the cap of
40 attempts (attempt `i + 1` performs the listing at index `i`, so the capped
attempts are indices `0..39`), then `__check_contents` returns successfully
without raising — including when the match first occurs on the final capped
attempt (index 39). -/
theorem C1_readiness_success (listing : Nat → Nat) (N : Nat) (dp : String)
    (h : ∃ i, i < 40 ∧ listing i = N) :
    (checkContents listing N dp).1 = Except.ok () := by
  apply checkContentsAux_ok listing N dp 41 0 0 (by omega) (by omega)
  rcases h with ⟨i, h40, hi⟩
  exact Or.inr ⟨i, Nat.zero_le i, h40, hi⟩

theorem C1_witness :
    (checkContents (fun j => if j = 39 then 5 else 0) 5
      "gs://bucket/folder/file.json").1 = Except.ok () :=
  C1_readiness_success (fun j => if j = 39 then 5 else 0) 5
    "gs://bucket/folder/file.json" ⟨39, by decide, by decide⟩

/-- C2: if the first status response carries a non-terminal `errors` field
(`errors` present, state not `DONE`), `poll_job` raises with that payload
right after the first poll: exactly one status-retrieval call is made. -/
theorem C2_error_field_immediate (resp : Nat → JobStatus) (fuel : Nat)
    (e : String) (hfuel : 1 ≤ fuel) (herr : (resp 0).errors = some e)
    (hstate : (resp 0).state ≠ "DONE") :
    (pollJob resp fuel).1 = some (PollOutcome.raisedErrors e) ∧
    statusCalls (pollJob resp fuel).2 = 1 := by
  obtain ⟨f, rfl⟩ : ∃ f, fuel = f + 1 := ⟨fuel - 1, by omega⟩
  refine ⟨?_, ?_⟩ <;>
    simp [pollJob, pollJobAux, herr, statusCalls, isGetStatus]

theorem C2_witness :
    (pollJob (fun _ => JobStatus.mk "RUNNING" (some "boom") none) 7).1 =
      some (PollOutcome.raisedErrors "boom") ∧
    statusCalls (pollJob (fun _ => JobStatus.mk "RUNNING" (some "boom") none) 7).2 = 1 :=
  C2_error_field_immediate (fun _ => JobStatus.mk "RUNNING" (some "boom") none)
    7 "boom" (by omega) rfl (by decide)

/-- C3: the job identifier of a submission is exactly the fresh
`str(uuid.uuid4())` draw for that call, so it is never derived from the
request content, and two calls whose uuid draws differ (which is what
`uuid4` provides) get pairwise distinct job identifiers regardless of their
request contents. -/
theorem C3_job_id_fresh (u1 u2 : String)
    (pid1 did1 tn1 sp1 sf1 wd1 pid2 did2 tn2 sp2 sf2 wd2 : String)
    (s1 s2 : List String) (hne : u1 ≠ u2) :
    (load_table u1 pid1 did1 tn1 s1 sp1 sf1 wd1).jobReference.job_id = u1 ∧
    (load_table u1 pid1 did1 tn1 s1 sp1 sf1 wd1).jobReference.job_id ≠
      (load_table u2 pid2 did2 tn2 s2 sp2 sf2 wd2).jobReference.job_id :=
  ⟨rfl, hne⟩

theorem C3_witness :
    (load_table "5ba89f8a" "p1" "d1" "t1" ["f1"] "gs://a/b/c" "CSV"
      "WRITE_EMPTY").jobReference.job_id = "5ba89f8a" ∧
    (load_table "5ba89f8a" "p1" "d1" "t1" ["f1"] "gs://a/b/c" "CSV"
      "WRITE_EMPTY").jobReference.job_id ≠
    (load_table "22c1d9e0" "p1" "d1" "t1" ["f1"] "gs://a/b/c" "CSV"
      "WRITE_EMPTY").jobReference.job_id :=
  C3_job_id_fresh "5ba89f8a" "22c1d9e0" "p1" "d1" "t1" "gs://a/b/c" "CSV"
    "WRITE_EMPTY" "p1" "d1" "t1" "gs://a/b/c" "CSV" "WRITE_EMPTY"
    ["f1"] ["f1"] (by decide)

/-- C4: on the status sequence running, running, done-success (state `DONE`,
no error fields), `poll_job` returns success after exactly 3 status-retrieval
calls. -/
theorem C4_three_polls (resp : Nat → JobStatus) (fuel : Nat) (hfuel : 3 ≤ fuel)
    (h0e : (resp 0).errors = none) (h0s : (resp 0).state ≠ "DONE")
    (h1e : (resp 1).errors = none) (h1s : (resp 1).state ≠ "DONE")
    (h2e : (resp 2).errors = none) (h2s : (resp 2).state = "DONE")
    (h2r : (resp 2).errorResult = none) :
    (pollJob resp fuel).1 = some PollOutcome.success ∧
    statusCalls (pollJob resp fuel).2 = 3 := by
  obtain ⟨f, rfl⟩ : ∃ f, fuel = f + 1 + 1 + 1 := ⟨fuel - 3, by omega⟩
  refine ⟨?_, ?_⟩ <;>
    simp [pollJob, pollJobAux, h0e, h0s, h1e, h1s, h2e, h2s, h2r,
      statusCalls, isGetStatus]

theorem C4_witness :
    (pollJob (fun n => if n < 2 then JobStatus.mk "RUNNING" none none
      else JobStatus.mk "DONE" none none) 3).1 = some PollOutcome.success ∧
    statusCalls (pollJob (fun n => if n < 2 then JobStatus.mk "RUNNING" none none
      else JobStatus.mk "DONE" none none) 3).2 = 3 :=
  C4_three_polls (fun n => if n < 2 then JobStatus.mk "RUNNING" none none
      else JobStatus.mk "DONE" none none) 3 (by omega)
    (by decide) (by decide) (by decide) (by decide) (by decide) (by decide)
    (by decide)

/-- C5: if the first `k` status responses are non-terminal with no error
field and the response at index `k` is done-error — state `DONE` carrying
`errorResult` payload `P` (and no per-poll `errors` field) — then `poll_job`
raises, and the surfaced error is exactly the payload `P`. -/
theorem C5_done_error_surfaced (resp : Nat → JobStatus) (fuel k : Nat)
    (P : String) (hfuel : k + 1 ≤ fuel)
    (hpre : ∀ j, j < k → (resp j).errors = none ∧ (resp j).state ≠ "DONE")
    (herr : (resp k).errors = none) (hstate : (resp k).state = "DONE")
    (hres : (resp k).errorResult = some P) :
    (pollJob resp fuel).1 = some (PollOutcome.raisedErrorResult P) := by
  apply pollJobAux_errorResult resp P k fuel 0 hfuel
  · intro j hj; simpa using hpre j hj
  · simpa using herr
  · simpa using hstate
  · simpa using hres

theorem C5_witness :
    (pollJob (fun n => if n = 0 then JobStatus.mk "RUNNING" none none
      else JobStatus.mk "DONE" none (some "bad row")) 2).1 =
      some (PollOutcome.raisedErrorResult "bad row") :=
  C5_done_error_surfaced (fun n => if n = 0 then JobStatus.mk "RUNNING" none none
      else JobStatus.mk "DONE" none (some "bad row")) 2 1 "bad row"
    (by omega) (by decide) (by decide) (by decide) (by decide)

/-- C6 counterexample: the claim quantifies over every expected count `N`,
but for `N = 0` the readiness check returns successfully immediately —
`cur_count` is initialised to 0, so the `while batch_count != cur_count`
loop body never runs — even against a listing that always returns 1 object
and hence never returns exactly 0 within the cap.  No error is raised and
no listing call (and no sleep) is even performed. -/
theorem C6_counterexample :
    checkContents (fun _ => 1) 0 "gs://bucket/folder/file.json" =
      (Except.ok (), []) := rfl

/-- C6 (amended): for every expected count `N ≥ 1` and every listing
sequence that never returns exactly `N` objects within the cap of 40
attempts (listing indices `0..39`), the readiness check raises a
`ValueError` reporting the expected count `N`, the last observed count
(the count returned by the final listing, performed at index 40 just before
raising), and the checked location. -/
theorem C6_readiness_timeout (listing : Nat → Nat) (N : Nat) (dp : String)
    (hN : 1 ≤ N) (h : ∀ i, i < 40 → listing i ≠ N) :
    (checkContents listing N dp).1 =
      Except.error { expected := N, found := listing 40, path := dp } := by
  apply checkContentsAux_timeout listing N dp 41 0 0 (by omega) (by omega)
    (by omega)
  exact fun i _ hi40 => h i hi40

theorem C6_witness :
    (checkContents (fun _ => 3) 1 "gs://bucket/folder/file.json").1 =
      Except.error
        { expected := 1, found := 3, path := "gs://bucket/folder/file.json" } :=
  C6_readiness_timeout (fun _ => 3) 1 "gs://bucket/folder/file.json"
    (by omega) (by decide)

/-- C7: the sleep performed before the listing on attempt index `i` of the
readiness check lasts `1 + i / 10` seconds (Nat division, matching Python 2
`1 + int(ceil(check_count / 10))` where `/` is integer floor division), so
the backoff grows only via integer division of the attempt index by 10 and
is constantly 1 second for the first 10 attempts. -/
theorem C7_backoff_schedule (listing : Nat → Nat) (N : Nat) (dp : String)
    (i : Nat) (hi : i < (sleepSecs (checkContents listing N dp).2).length) :
    (sleepSecs (checkContents listing N dp).2).getD i 0 = 1 + i / 10 ∧
    (i < 10 → (sleepSecs (checkContents listing N dp).2).getD i 0 = 1) := by
  obtain ⟨n, hn⟩ := checkContentsAux_sleeps listing N dp 41 0 0
  simp only [checkContents] at hi ⊢
  have hval : (sleepSecs (checkContentsAux listing N dp 41 0 0).2).getD i 0 =
      1 + i / 10 := by
    rw [hn] at hi ⊢
    rw [List.getD_eq_getElem _ _ hi]
    simp
  exact ⟨hval, fun h10 => by rw [hval]; omega⟩

theorem C7_witness :
    (sleepSecs (checkContents (fun _ => 0) 1 "gs://bucket/folder/file.json").2).getD
        0 0 = 1 + 0 / 10 ∧
    (0 < 10 →
      (sleepSecs (checkContents (fun _ => 0) 1 "gs://bucket/folder/file.json").2).getD
        0 0 = 1) :=
  C7_backoff_schedule (fun _ => 0) 1 "gs://bucket/folder/file.json" 0 (by decide)

/-- C8: `run` is fully sequential — readiness check, then submission, then
polling.  If the readiness check raises, `run` propagates that error, and
its event log is exactly the readiness check's log, which contains no job
submission and no job-status retrieval: the warehouse is untouched. -/
theorem C8_readiness_failure_stops_run (listing : Nat → Nat)
    (resp : Nat → JobStatus) (uuid : String) (pollFuel : Nat) (pid : String)
    (bc : Nat) (did tn : String) (schema : List String) (dp sf wd : String)
    (nr pi : Nat) (e : CheckTimeout)
    (herr : (checkContents listing bc dp).1 = Except.error e) :
    run listing resp uuid pollFuel pid bc did tn schema dp sf wd nr pi =
      (some (Except.error (RunError.readiness e)), (checkContents listing bc dp).2) ∧
    remoteJobCalls (run listing resp uuid pollFuel pid bc did tn schema dp sf wd nr pi).2 = 0 := by
  have hsplit : checkContents listing bc dp =
      (Except.error e, (checkContents listing bc dp).2) := by
    rw [← herr]
  have hrun : run listing resp uuid pollFuel pid bc did tn schema dp sf wd nr pi =
      (some (Except.error (RunError.readiness e)), (checkContents listing bc dp).2) := by
    rw [run, hsplit]
  refine ⟨hrun, ?_⟩
  rw [hrun]
  simpa [checkContents] using checkContentsAux_no_remote listing bc dp 41 0 0

theorem C8_witness :
    run (fun _ => 0) (fun _ => JobStatus.mk "DONE" none none) "5ba89f8a" 5
        "p1" 1 "d1" "t1" ["f1"] "gs://b/f/x.json" "CSV" "WRITE_EMPTY" 5 1 =
      (some (Except.error (RunError.readiness
        { expected := 1, found := 0, path := "gs://b/f/x.json" })),
       (checkContents (fun _ => 0) 1 "gs://b/f/x.json").2) ∧
    remoteJobCalls (run (fun _ => 0) (fun _ => JobStatus.mk "DONE" none none)
        "5ba89f8a" 5 "p1" 1 "d1" "t1" ["f1"] "gs://b/f/x.json" "CSV"
        "WRITE_EMPTY" 5 1).2 = 0 :=
  C8_readiness_failure_stops_run (fun _ => 0)
    (fun _ => JobStatus.mk "DONE" none none) "5ba89f8a" 5 "p1" 1 "d1" "t1"
    ["f1"] "gs://b/f/x.json" "CSV" "WRITE_EMPTY" 5 1
    { expected := 1, found := 0, path := "gs://b/f/x.json" } rfl

/-- C9: the `poll_interval` parameter accepted by `run` is never read, so
`run` behaves identically — same result, same event log — for any two values
of it with all other inputs equal; and every sleep of the polling loop lasts
the hard-coded 1 second. -/
theorem C9_poll_interval_dead (listing : Nat → Nat) (resp : Nat → JobStatus)
    (uuid : String) (pollFuel : Nat) (pid : String) (bc : Nat)
    (did tn : String) (schema : List String) (dp sf wd : String)
    (nr pi1 pi2 : Nat) :
    run listing resp uuid pollFuel pid bc did tn schema dp sf wd nr pi1 =
      run listing resp uuid pollFuel pid bc did tn schema dp sf wd nr pi2 ∧
    (sleepSecs (pollJob resp pollFuel).2).all (fun s => s == 1) = true :=
  ⟨rfl, pollJobAux_sleeps_one resp pollFuel 0⟩

/-- C10: the job body built by `load_table` always sets
`ignoreUnknownValues` to true and `createDisposition` to `CREATE_IF_NEEDED`,
whatever the arguments are. -/
theorem C10_fixed_dispositions (uuid pid did tn : String)
    (schema : List String) (sp sf wd : String) :
    (load_table uuid pid did tn schema sp sf wd).load.ignoreUnknownValues = true ∧
    (load_table uuid pid did tn schema sp sf wd).load.createDisposition =
      "CREATE_IF_NEEDED" :=
  ⟨rfl, rfl⟩
